import Mathlib

/-!
Verification development for the audio-forensic web application and its
audio analysis pipeline contract.

The web-layer definitions are shallow embeddings of the TypeScript source
(classify-audio route handler, DatabaseService, PDF report generator,
sonar view).  The analysis pipeline itself runs as an external script that
is not part of the given source; its components are modelled from the
specification and are polymorphic over the transcendental numeric
primitives (windowed DFT magnitudes, square root, log10) that the external
script implements.  All sample, frequency and magnitude arithmetic is over
the rationals.
-/

namespace AudioForensic

/-! ## Core data model (spec section 3) -/

/-- Modelled from the spec: a SpectrumPoint of the external analysis
pipeline, a frequency bin with a normalized magnitude tagged with the
originating frame's start offset. -/
structure SpectrumPoint where
  frequency : ℚ
  magnitude : ℚ
  time : ℚ
deriving DecidableEq, Repr

/-- Modelled from the spec: a SoundEvent emitted by the external event
detector, with onset time, category label, dominant frequency, normalized
amplitude, decibel level and optional confidence. -/
structure SoundEvent where
  time : ℚ
  type : String
  frequency : ℚ
  amplitude : ℚ
  decibels : ℚ
  confidence : Option ℚ
deriving DecidableEq, Repr

/-- Modelled from the spec: the terminal AnalysisResult aggregate produced
by the external pipeline and consumed verbatim by the web layer. -/
structure AnalysisResult where
  duration : ℚ
  sampleRate : ℚ
  averageRMS : ℚ
  detectedSounds : Nat
  dominantFrequency : ℚ
  maxDecibels : ℚ
  soundEvents : List SoundEvent
  frequencySpectrum : List SpectrumPoint
deriving DecidableEq, Repr

/-! ## Classify-audio POST handler (src/app/api/classify-audio/route.ts) -/

/-- HTTP response produced by the classify-audio POST handler: status code,
the error field of the JSON body (none on success) and the parsed
classification payload when one is returned. -/
structure ApiResponse (β : Type) where
  status : Nat
  errorMsg : Option String
  payload : Option β
deriving DecidableEq, Repr

/-- Outcome of the spawned classifier process as observed by the handler:
either the 60-second timeout fires first, or the spawn itself fails, or the
process closes with an exit code and (for JSON.parse of its stdout) an
optional parsed value. -/
inductive ClassifyOutcome (β : Type) where
  | timeout
  | spawnFailure (msg : String)
  | closed (exitCode : Int) (parsed : Option β)
deriving DecidableEq, Repr

/-- Result of one handler invocation: the response resolved to the caller
and whether a classifier process was spawned along the way. -/
structure HandlerRun (β : Type) where
  response : ApiResponse β
  spawned : Bool
deriving DecidableEq, Repr

/-- The classify-audio POST handler (route.ts).  A missing audioData field
is rejected with 400 before any process is spawned; otherwise the response
is selected from the process outcome: timeout gives 408, spawn failure
gives 500, exit code 0 with unparseable stdout gives the 500 parse-failure
response, exit code 0 with parsed JSON is returned with 200, and a nonzero
exit code gives the 500 classification-failed response. -/
def classifyAudioPOST {α β : Type} (audioData : Option α)
    (outcome : ClassifyOutcome β) : HandlerRun β :=
  match audioData with
  | none => ⟨⟨400, some "No audio data provided", none⟩, false⟩
  | some _ =>
    match outcome with
    | .timeout => ⟨⟨408, some "Classification timeout", none⟩, true⟩
    | .spawnFailure _ => ⟨⟨500, some "Failed to start python process", none⟩, true⟩
    | .closed exitCode parsed =>
      if exitCode = 0 then
        match parsed with
        | some j => ⟨⟨200, none, some j⟩, true⟩
        | none => ⟨⟨500, some "Failed to parse classification results", none⟩, true⟩
      else ⟨⟨500, some "MediaPipe classification failed", none⟩, true⟩

/-! ## DatabaseService.saveAnalysis (src/lib/database.ts) -/

/-- Persisted record shape built by DatabaseService.saveAnalysis
(database.ts).  Each column holds the value read from the corresponding
field of audioData.analysisResults, with none standing for the JS value
undefined; analysis_results stores the whole analysisResults object, which
is modelled as a map from field name to optional value. -/
structure AudioAnalysisRecord (V : Type) where
  filename : Option V
  duration : Option V
  sample_rate : Option V
  average_rms : Option V
  detected_sounds : Option V
  dominant_frequency : Option V
  max_decibels : Option V
  sound_events : Option V
  frequency_spectrum : Option V
  analysis_results : String → Option V

/-- The eight field names of analysisResults that saveAnalysis reads to
fill the dedicated columns of the record. -/
def audioAnalysisFieldNames : List String :=
  ["duration", "sampleRate", "averageRMS", "detectedSounds",
   "dominantFrequency", "maxDecibels", "soundEvents", "frequencySpectrum"]

/-- Record construction performed by DatabaseService.saveAnalysis
(database.ts lines 111-122): the six scalar columns take the field value
verbatim (undefined when absent), while sound_events and frequency_spectrum
apply the JS fallback x or-else empty-array, so an absent field yields the
empty array value rather than undefined. -/
def buildAnalysisRecord {V : Type} (name : Option V) (emptyArr : V)
    (results : String → Option V) : AudioAnalysisRecord V :=
  { filename := name
    duration := results "duration"
    sample_rate := results "sampleRate"
    average_rms := results "averageRMS"
    detected_sounds := results "detectedSounds"
    dominant_frequency := results "dominantFrequency"
    max_decibels := results "maxDecibels"
    sound_events := some ((results "soundEvents").getD emptyArr)
    frequency_spectrum := some ((results "frequencySpectrum").getD emptyArr)
    analysis_results := results }

/-- The eight dedicated columns extracted from analysisResults, in record
order. -/
def extractedColumns {V : Type} (a : AudioAnalysisRecord V) : List (Option V) :=
  [a.duration, a.sample_rate, a.average_rms, a.detected_sounds,
   a.dominant_frequency, a.max_decibels, a.sound_events, a.frequency_spectrum]

/-- An analysisResults object that carries its data under snake_case names
instead of the camelCase names saveAnalysis binds to. -/
def renamedResults : String → Option String := fun k =>
  if k = "sound_events" then some "[event1]"
  else if k = "detected_sounds" then some "1"
  else none

/-- Result of one DatabaseService.saveAnalysis call at the public
interface: the resolved value (none standing for null) and whether anything
was actually persisted to the database. -/
structure SaveOutcome where
  result : Option String
  persisted : Bool
deriving DecidableEq, Repr

/-- Branch logic of DatabaseService.saveAnalysis (database.ts lines
99-140): when the Supabase client is unavailable it resolves, after a
simulated delay, to the string demo-id- followed by the current timestamp
and persists nothing; when available it returns the inserted row id, or
null when the insert reports an error. -/
def saveAnalysis (available : Bool) (now : Nat)
    (insertedId : Option String) : SaveOutcome :=
  if available then
    match insertedId with
    | some id => ⟨some id, true⟩
    | none => ⟨none, false⟩
  else ⟨some ("demo-id-" ++ toString now), false⟩

/-! ## PDF report generation (src/lib/pdf-generator.ts) -/

/-- Stable insertion of a spectrum point into a magnitude-descending list:
the point goes in front of the first strictly smaller magnitude, so equal
magnitudes keep their original relative order, matching the stable JS
Array.sort with comparator b.magnitude - a.magnitude. -/
def insertByMagDesc (p : SpectrumPoint) : List SpectrumPoint → List SpectrumPoint
  | [] => [p]
  | q :: rest =>
    if q.magnitude < p.magnitude then p :: q :: rest
    else q :: insertByMagDesc p rest

/-- Stable sort of spectrum points by descending magnitude, the order
produced by results.frequencySpectrum.sort((a, b) => b.magnitude - a.magnitude)
in pdf-generator.ts line 199. -/
def pdfSpectrumSort : List SpectrumPoint → List SpectrumPoint
  | [] => []
  | p :: rest => insertByMagDesc p (pdfSpectrumSort rest)

/-- Effect of generatePDFReport (pdf-generator.ts) on the analysisResults
object it is handed: soundEvents is only read through slice and map, but
when frequencySpectrum is non-empty the report calls Array.sort directly on
it, which sorts the shared array in place by descending magnitude. -/
def generatePDFReport (r : AnalysisResult) : AnalysisResult :=
  if 0 < r.frequencySpectrum.length then
    { r with frequencySpectrum := pdfSpectrumSort r.frequencySpectrum }
  else r

/-- A spectrum point with the smaller magnitude, listed first in the
pipeline's frequency-ascending spectrum. -/
def spectrumLow : SpectrumPoint := ⟨100, 0, 0⟩

/-- A spectrum point with the larger magnitude, listed second in the
pipeline's frequency-ascending spectrum. -/
def spectrumHigh : SpectrumPoint := ⟨200, 1, 0⟩

/-- A concrete AnalysisResult whose frequencySpectrum is in ascending
frequency order but not in descending magnitude order. -/
def pdfDemoResult : AnalysisResult :=
  ⟨1, 44100, 0, 0, 200, 0, [], [spectrumLow, spectrumHigh]⟩

/-! ## Sonar view (src/app/components/sonar-view.tsx) -/

/-- The Total Events figure displayed by the sonar view's detection
statistics panel (sonar-view.tsx line 695), which renders
analysisResults.detectedSounds. -/
def sonarTotalEventsDisplay (r : AnalysisResult) : Nat := r.detectedSounds

/-- JS Array.prototype.reduce with no initial accumulator: on an empty
array it throws a TypeError; otherwise the first element seeds the
accumulator and the rest are folded from the left. -/
def reduceNoInit {α : Type} (f : α → α → α) : List α → Except String α
  | [] => .error "TypeError: Reduce of empty array with no initial value"
  | x :: xs => .ok (xs.foldl f x)

/-- Distance score used by the sonar view's nearest-event search
(sonar-view.tsx lines 505-506). -/
def eventClickDistance (e : SoundEvent) (time freq : ℚ) : ℚ :=
  |e.time - time| + |e.frequency - freq| / 100

/-- The sonar view's 2D canvas click handler (sonar-view.tsx
handleCanvas2DClick): when the click lands inside the sonar radius
(stated here on squared distances, since both sides are non-negative) it
reduces soundEvents with no initial accumulator to find the nearest event
and selects it; outside the radius nothing is selected.  The time and
frequency derived from the click's polar coordinates are taken as
inputs. -/
def handleCanvas2DClick (events : List SoundEvent)
    (distSq maxRadius time freq : ℚ) : Except String (Option SoundEvent) :=
  if distSq ≤ maxRadius * maxRadius then
    match reduceNoInit
        (fun nearest event =>
          if eventClickDistance event time freq <
              eventClickDistance nearest time freq then event else nearest)
        events with
    | .error msg => .error msg
    | .ok e => .ok (some e)
  else .ok none

/-! ## The analysis pipeline, modelled from the spec

The pipeline itself is an external script that is not part of the given
source; every definition below is modelled from the specification
(sections 2, 4, 6 and 7).  The numeric primitives the external script
computes with transcendental arithmetic are collected in DspOps, and
every pipeline theorem is stated for all values of these primitives. -/

/-- Modelled from the spec: the numeric primitives of the missing external
analysis script that cannot be carried out exactly over the rationals: the
windowed-DFT magnitude computation of the Spectral Transformer, the square
root used for RMS energy, and the base-10 logarithm used for decibel
levels. -/
structure DspOps where
  dftMags : List ℚ → List ℚ
  sqrtQ : ℚ → ℚ
  log10Q : ℚ → ℚ

/-- Modelled from the spec: a raw PCM waveform, an ordered sequence of
normalized amplitude samples with a sample rate in Hz. -/
structure Waveform where
  samples : List ℚ
  sampleRate : ℚ
deriving DecidableEq, Repr

/-- Modelled from the spec: the pipeline configuration with the recognized
options frameSize, hopSize, sensitivityFactor, minHoldTimeMs and
referenceDb. -/
structure Config where
  frameSize : Nat
  hopSize : Nat
  sensitivityFactor : ℚ
  minHoldTimeMs : ℚ
  referenceDb : ℚ
deriving DecidableEq, Repr

/-- Modelled from the spec: a fixed-length slice of the waveform with its
start offset in samples, zero-padded when it runs past the end. -/
structure Frame where
  startIndex : Nat
  samples : List ℚ
deriving DecidableEq, Repr

/-- Modelled from the spec: the error taxonomy of the pipeline contract;
DecodeError belongs to the audio decoding stage that precedes the pipeline
and is not modelled here. -/
inductive PipelineError where
  | InvalidConfig
  | EmptyInputError
deriving DecidableEq, Repr

/-- Modelled from the spec: total number of frames needed to cover
sampleCount samples at the given hop, the ceiling of sampleCount divided
by hopSize. -/
def numFrames (sampleCount hopSize : Nat) : Nat :=
  (sampleCount + hopSize - 1) / hopSize

/-- Modelled from the spec: one frame's samples, read from the waveform at
the given start offset and zero-padded past the end of the waveform. -/
def extractFrame (samples : List ℚ) (start frameSize : Nat) : List ℚ :=
  (List.range frameSize).map (fun j => samples.getD (start + j) 0)

/-- Modelled from the spec: the Frame Segmenter's output, the finite
sequence of frames starting at multiples of hopSize and covering the
entire waveform. -/
def segmentFrames (samples : List ℚ) (frameSize hopSize : Nat) : List Frame :=
  (List.range (numFrames samples.length hopSize)).map
    (fun i => ⟨i * hopSize, extractFrame samples (i * hopSize) frameSize⟩)

/-- Modelled from the spec: sum of squared samples of a frame. -/
def sumSq (l : List ℚ) : ℚ := (l.map (fun x => x * x)).sum

/-- Modelled from the spec: mean of squared samples, zero for an empty
frame. -/
def meanSq (l : List ℚ) : ℚ :=
  if l.length = 0 then 0 else sumSq l / l.length

/-- Modelled from the spec: RMS energy of a frame; an empty or all-silent
frame yields the zeroed value directly rather than an error, as the
Feature Extractor contract requires. -/
def frameRMS (ops : DspOps) (l : List ℚ) : ℚ :=
  if sumSq l = 0 then 0 else ops.sqrtQ (meanSq l)

/-- Modelled from the spec: the floor decibel value substituted for silent
frames to avoid negative infinity. -/
def dbFloor : ℚ := -60

/-- Modelled from the spec: decibel level of a frame, twenty times the
base-10 logarithm of rms over the reference, with the floor value
substituted when rms is zero. -/
def frameDb (ops : DspOps) (cfg : Config) (rms : ℚ) : ℚ :=
  if rms = 0 then dbFloor else 20 * ops.log10Q (rms / cfg.referenceDb)

/-- Modelled from the spec: normalized peak amplitude of a frame, the
largest absolute sample value. -/
def frameAmplitude (l : List ℚ) : ℚ := (l.map (fun x => |x|)).foldr max 0

/-- Modelled from the spec: frequency of the k-th DFT bin at resolution
sampleRate over frameSize. -/
def binFrequency (sampleRate : ℚ) (frameSize : Nat) (k : Nat) : ℚ :=
  k * sampleRate / frameSize

/-- Modelled from the spec: magnitudes normalized to the unit interval
relative to the adaptive reference given by the largest magnitude; a
spectrum with no positive magnitude normalizes to zeros. -/
def normalizeMags (mags : List ℚ) : List ℚ :=
  let m := mags.foldr max 0
  if 0 < m then mags.map (fun x => x / m) else mags.map (fun _ => 0)

/-- Modelled from the spec: the Spectral Transformer's output for one
frame, spectrum points for the bins from 0 to sampleRate over two at
resolution sampleRate over frameSize, each tagged with the frame's start
offset in seconds. -/
def frameSpectrum (ops : DspOps) (w : Waveform) (cfg : Config)
    (f : Frame) : List SpectrumPoint :=
  let mags := normalizeMags (ops.dftMags f.samples)
  (List.range (cfg.frameSize / 2 + 1)).map
    (fun k =>
      ⟨binFrequency w.sampleRate cfg.frameSize k, mags.getD k 0,
       (f.startIndex : ℚ) / w.sampleRate⟩)

/-- First maximizer of a score over a list, none for the empty list. -/
def pickMax {α : Type} (score : α → ℚ) : List α → Option α
  | [] => none
  | x :: xs =>
    some (xs.foldl (fun best y => if score best < score y then y else best) x)

/-- Modelled from the spec: dominant frequency of a spectrum, the
frequency of its highest-magnitude point, zero for an empty spectrum. -/
def spectrumDomFreq (sp : List SpectrumPoint) : ℚ :=
  match pickMax (fun p => p.magnitude) sp with
  | some p => p.frequency
  | none => 0

/-- Modelled from the spec: the per-frame scalar features derived by the
Feature Extractor. -/
structure FrameFeatures where
  time : ℚ
  rms : ℚ
  amplitude : ℚ
  decibels : ℚ
  domFrequency : ℚ
deriving DecidableEq, Repr

/-- Modelled from the spec: the Feature Extractor, computing one frame's
start time, RMS energy, peak amplitude, decibel level and dominant
frequency. -/
def frameFeatures (ops : DspOps) (w : Waveform) (cfg : Config)
    (f : Frame) : FrameFeatures :=
  let r := frameRMS ops f.samples
  { time := (f.startIndex : ℚ) / w.sampleRate
    rms := r
    amplitude := frameAmplitude f.samples
    decibels := frameDb ops cfg r
    domFrequency := spectrumDomFreq (frameSpectrum ops w cfg f) }

/-- Modelled from the spec: the heuristic rule-based Classifier mapping a
closed event candidate's dominant frequency to a label from the fixed
label set together with a confidence score; it always returns a label,
with Unknown as the fallback.  The concrete frequency cut-offs are the
implementer-chosen constants the spec leaves open. -/
def classify (freq : ℚ) : String × ℚ :=
  if freq ≤ 0 then ("Unknown", 1/10)
  else if freq < 120 then ("Ambient", 3/5)
  else if freq < 300 then ("Percussion", 3/5)
  else if freq < 2000 then ("Voice", 7/10)
  else ("Tone", 3/5)

/-- Modelled from the spec: an open event candidate of the Event Detector,
recording the onset time and the features of the peak-RMS frame observed
so far, so that amplitude and decibels are taken from the same frame. -/
structure Candidate where
  onset : ℚ
  peak : FrameFeatures
deriving DecidableEq, Repr

/-- Modelled from the spec: the Event Detector's two control states, Idle
or InEvent with the open candidate and the count of consecutive
below-threshold frames seen since the event last exceeded the
threshold. -/
inductive DetectorMode where
  | idle
  | inEvent (cand : Candidate) (belowCount : Nat)
deriving DecidableEq, Repr

/-- Modelled from the spec: the Event Detector's threaded state, the
adaptive noise floor, the control mode and the list of emitted events in
chronological order. -/
structure DetectorState where
  noiseFloor : ℚ
  mode : DetectorMode
  emitted : List SoundEvent
deriving DecidableEq, Repr

/-- Modelled from the spec: smoothing constant of the exponential moving
average maintaining the noise floor, an implementer-chosen constant. -/
def emaAlpha : ℚ := 9/10

/-- Modelled from the spec: the detection threshold, noise floor times the
tunable sensitivity factor. -/
def detectorThreshold (cfg : Config) (noiseFloor : ℚ) : ℚ :=
  noiseFloor * cfg.sensitivityFactor

/-- Modelled from the spec: closing a candidate emits a SoundEvent with
the onset time and the peak-observed values, classified by the rule-based
classifier. -/
def closeCandidate (c : Candidate) : SoundEvent :=
  let lc := classify c.peak.domFrequency
  { time := c.onset
    type := lc.1
    frequency := c.peak.domFrequency
    amplitude := c.peak.amplitude
    decibels := c.peak.decibels
    confidence := some lc.2 }

/-- Ceiling of a non-negative rational as a natural number, zero for
non-positive input. -/
def ratCeilNat (q : ℚ) : Nat :=
  if q ≤ 0 then 0
  else (Rat.floor q).toNat + (if (Rat.floor q : ℚ) < q then 1 else 0)

/-- Modelled from the spec: the minimum hold time converted from
milliseconds to a number of consecutive frames at the configured hop. -/
def holdFrames (w : Waveform) (cfg : Config) : Nat :=
  ratCeilNat (cfg.minHoldTimeMs * w.sampleRate / (1000 * cfg.hopSize))

/-- Modelled from the spec: one step of the Event Detector state machine.
Idle moves to InEvent when the frame's RMS exceeds the threshold, opening
a candidate at the frame's time; InEvent tracks the peak-RMS frame,
resets the below-threshold count while above threshold, and closes and
emits the candidate once the RMS has stayed under the threshold for the
minimum hold time.  The noise floor is updated by exponential moving
average on every frame. -/
def stepDetector (cfg : Config) (hold : Nat) (st : DetectorState)
    (f : FrameFeatures) : DetectorState :=
  let nf := emaAlpha * st.noiseFloor + (1 - emaAlpha) * f.rms
  match st.mode with
  | .idle =>
    if detectorThreshold cfg st.noiseFloor < f.rms then
      { noiseFloor := nf, mode := .inEvent ⟨f.time, f⟩ 0, emitted := st.emitted }
    else
      { noiseFloor := nf, mode := .idle, emitted := st.emitted }
  | .inEvent cand below =>
    let cand1 := if cand.peak.rms < f.rms then { cand with peak := f } else cand
    if detectorThreshold cfg st.noiseFloor < f.rms then
      { noiseFloor := nf, mode := .inEvent cand1 0, emitted := st.emitted }
    else if hold ≤ below + 1 then
      { noiseFloor := nf, mode := .idle,
        emitted := st.emitted ++ [closeCandidate cand] }
    else
      { noiseFloor := nf, mode := .inEvent cand1 (below + 1),
        emitted := st.emitted }

/-- Modelled from the spec: at the end of the waveform an open candidate
is closed and emitted with the values observed so far. -/
def finishDetector (st : DetectorState) : List SoundEvent :=
  match st.mode with
  | .idle => st.emitted
  | .inEvent cand _ => st.emitted ++ [closeCandidate cand]

/-- Modelled from the spec: the full Event Detector, a sequential fold of
the state machine over the frame features in chronological order, starting
idle with a zero noise floor. -/
def detectEvents (w : Waveform) (cfg : Config)
    (feats : List FrameFeatures) : List SoundEvent :=
  finishDetector (feats.foldl (stepDetector cfg (holdFrames w cfg)) ⟨0, .idle, []⟩)

/-- Mean of a list of rationals, zero for the empty list. -/
def averageOf (l : List ℚ) : ℚ :=
  if l.length = 0 then 0 else l.sum / l.length

/-- Modelled from the spec: the Aggregator's pure reduction of the frame
features, events and spectrum into the terminal AnalysisResult, with
detectedSounds defined as the count of sound events, dominantFrequency as
the frequency of the highest-magnitude spectrum point and maxDecibels as
the maximum event decibel level, the floor value when no event was
detected. -/
def aggregate (w : Waveform) (feats : List FrameFeatures)
    (events : List SoundEvent) (spectrum : List SpectrumPoint) : AnalysisResult :=
  { duration := (w.samples.length : ℚ) / w.sampleRate
    sampleRate := w.sampleRate
    averageRMS := averageOf (feats.map (fun f => f.rms))
    detectedSounds := events.length
    dominantFrequency := spectrumDomFreq spectrum
    maxDecibels :=
      match events with
      | [] => dbFloor
      | e :: es => (es.map (fun x => x.decibels)).foldl max e.decibels
    soundEvents := events
    frequencySpectrum := spectrum }

/-- Modelled from the spec: the whole pipeline.  An empty waveform is
rejected with EmptyInputError and a zero frame or hop size with
InvalidConfig before any processing; otherwise the stages run strictly
forward: segmentation, per-frame spectra and features, sequential event
detection, aggregation. -/
def runPipeline (ops : DspOps) (w : Waveform) (cfg : Config) :
    Except PipelineError AnalysisResult :=
  if w.samples.isEmpty then .error .EmptyInputError
  else if cfg.frameSize = 0 ∨ cfg.hopSize = 0 then .error .InvalidConfig
  else
    let frames := segmentFrames w.samples cfg.frameSize cfg.hopSize
    let feats := frames.map (frameFeatures ops w cfg)
    let spectrum := (frames.map (frameSpectrum ops w cfg)).flatten
    let events := detectEvents w cfg feats
    .ok (aggregate w feats events spectrum)

/-- Concrete DSP primitives for witnesses: a null transform, the identity
for the square root and a constant logarithm. -/
def demoOps : DspOps :=
  { dftMags := fun _ => []
    sqrtQ := fun q => q
    log10Q := fun _ => 0 }

/-- A concrete silent waveform of four zero samples at 4 Hz. -/
def silentWave : Waveform := ⟨[0, 0, 0, 0], 4⟩

/-- A concrete configuration with frame and hop size two. -/
def demoCfg : Config := ⟨2, 2, 2, 0, 1⟩

/-- The frames the segmenter produces on the silent demo waveform. -/
def silentFrames : List Frame :=
  segmentFrames silentWave.samples demoCfg.frameSize demoCfg.hopSize

/-- The per-frame features of the silent demo run. -/
def silentFeats : List FrameFeatures :=
  silentFrames.map (frameFeatures demoOps silentWave demoCfg)

/-- The events detected in the silent demo run. -/
def silentEvents : List SoundEvent := detectEvents silentWave demoCfg silentFeats

/-- The full spectrum of the silent demo run. -/
def silentSpectrum : List SpectrumPoint :=
  (silentFrames.map (frameSpectrum demoOps silentWave demoCfg)).flatten

/-- The AnalysisResult the pipeline produces on the silent demo run. -/
def silentResult : AnalysisResult :=
  aggregate silentWave silentFeats silentEvents silentSpectrum

/-! ## Helper lemmas -/

/-- Reading any index of an all-zero sample list with default zero gives
zero. -/
theorem getD_zero_of_all_zero (s : List ℚ) (i : Nat)
    (hz : ∀ x ∈ s, x = 0) : s.getD i 0 = 0 := by
  by_cases h : i < s.length
  · rw [List.getD_eq_getElem s 0 h]
    exact hz _ (List.getElem_mem h)
  · exact List.getD_eq_default s 0 (by omega)

/-- Every sample of every frame cut from an all-zero waveform is zero,
including the zero-padding. -/
theorem segmentFrames_all_zero (s : List ℚ) (fs hop : Nat)
    (hz : ∀ x ∈ s, x = 0) :
    ∀ g ∈ segmentFrames s fs hop, ∀ y ∈ g.samples, y = 0 := by
  intro g hg y hy
  obtain ⟨i, _, rfl⟩ := List.mem_map.mp hg
  obtain ⟨j, _, rfl⟩ := List.mem_map.mp hy
  exact getD_zero_of_all_zero s _ hz

/-- The RMS of an all-zero frame is the zeroed floor value, for any choice
of square-root primitive. -/
theorem frameRMS_zero (ops : DspOps) (l : List ℚ)
    (hz : ∀ x ∈ l, x = 0) : frameRMS ops l = 0 := by
  have hs : sumSq l = 0 := by
    apply List.sum_eq_zero
    intro x hx
    obtain ⟨y, hy, rfl⟩ := List.mem_map.mp hx
    rw [hz y hy, mul_zero]
  simp [frameRMS, hs]

/-- The average of an all-zero list is zero. -/
theorem averageOf_zero (l : List ℚ) (hz : ∀ x ∈ l, x = 0) :
    averageOf l = 0 := by
  unfold averageOf
  split
  · rfl
  · rw [List.sum_eq_zero hz, zero_div]

/-- A silent frame leaves the initial detector state untouched: the
threshold is not exceeded and the noise floor average of zeros stays
zero. -/
theorem stepDetector_silent (cfg : Config) (hold : Nat) (f : FrameFeatures)
    (hf : f.rms = 0) :
    stepDetector cfg hold ⟨0, .idle, []⟩ f = ⟨0, .idle, []⟩ := by
  simp [stepDetector, detectorThreshold, hf]

/-- Folding the detector over silent frames from the initial state emits
nothing and ends idle. -/
theorem detector_fold_silent (cfg : Config) (hold : Nat) :
    ∀ (feats : List FrameFeatures), (∀ f ∈ feats, f.rms = 0) →
      feats.foldl (stepDetector cfg hold) ⟨0, .idle, []⟩ = ⟨0, .idle, []⟩ := by
  intro feats
  induction feats with
  | nil => intro _; rfl
  | cons f fs ih =>
    intro h
    rw [List.foldl_cons, stepDetector_silent cfg hold f (h f (by simp))]
    exact ih (fun g hg => h g (by simp [hg]))

/-- A frame of the given sample count exactly reproduces the samples. -/
theorem extractFrame_self (s : List ℚ) : extractFrame s 0 s.length = s := by
  apply List.ext_getElem
  · simp [extractFrame]
  · intro i h1 h2
    simp only [extractFrame, List.getElem_map, List.getElem_range, Nat.zero_add]
    exact List.getD_eq_getElem s 0 h2

/-! ## Claim theorems -/

/-- C1: for every AnalysisResult produced by a pipeline run, the scalar
field detectedSounds equals the length of the soundEvents sequence, and
the sonar view's Total Events display, which renders detectedSounds,
therefore shows the same number as the soundEvents list it renders. -/
theorem detectedSounds_eq_soundEvents_length (ops : DspOps) (w : Waveform)
    (cfg : Config) (r : AnalysisResult)
    (h : runPipeline ops w cfg = .ok r) :
    r.detectedSounds = r.soundEvents.length ∧
    sonarTotalEventsDisplay r = r.soundEvents.length := by
  simp only [runPipeline] at h
  split at h
  · simp at h
  · split at h
    · simp at h
    · simp only [Except.ok.injEq] at h
      subst h
      exact ⟨rfl, rfl⟩

/-- Witness for C1 at the concrete silent run; the pipeline run reduces
to the staged result definitionally. -/
theorem detectedSounds_eq_soundEvents_length_witness :
    silentResult.detectedSounds = silentResult.soundEvents.length ∧
    sonarTotalEventsDisplay silentResult = silentResult.soundEvents.length :=
  detectedSounds_eq_soundEvents_length demoOps silentWave demoCfg silentResult rfl

/-- C2: contrary to the immutability contract, generatePDFReport does
mutate the AnalysisResult it is handed: it leaves soundEvents unchanged
but sorts the frequencySpectrum array in place by descending magnitude,
so after the call the spectrum no longer holds the same elements in the
same order as before. -/
theorem generatePDFReport_mutates_spectrum :
    (generatePDFReport pdfDemoResult).soundEvents = pdfDemoResult.soundEvents ∧
    (generatePDFReport pdfDemoResult).frequencySpectrum =
      [spectrumHigh, spectrumLow] ∧
    (generatePDFReport pdfDemoResult).frequencySpectrum ≠
      pdfDemoResult.frequencySpectrum := by
  refine ⟨rfl, by decide, by decide⟩

/-- C3: when the spawned classifier has not completed within the
60-second timeout the handler responds 408 with error Classification
timeout, and this response is distinct from the 500 response with error
Failed to parse classification results returned when the process exits
cleanly but its stdout is not valid JSON. -/
theorem classify_timeout_distinct_from_parse_failure (a : String) :
    (@classifyAudioPOST String String (some a) ClassifyOutcome.timeout).response =
      ⟨408, some "Classification timeout", none⟩ ∧
    (@classifyAudioPOST String String (some a)
        (ClassifyOutcome.closed 0 none)).response =
      ⟨500, some "Failed to parse classification results", none⟩ ∧
    (⟨408, some "Classification timeout", none⟩ : ApiResponse String) ≠
      ⟨500, some "Failed to parse classification results", none⟩ := by
  refine ⟨rfl, rfl, by decide⟩

/-- C4: a request whose JSON body has no audioData field is rejected
before any processing: the handler responds 400 with error No audio data
provided and no classifier process is spawned, whatever the process
outcome would have been. -/
theorem no_audio_data_rejected_before_spawn (outcome : ClassifyOutcome String) :
    @classifyAudioPOST String String none outcome =
      ⟨⟨400, some "No audio data provided", none⟩, false⟩ := rfl

/-- C5 counterexample: an analysisResults object carrying its event list
under the name sound_events instead of soundEvents is not stored with all
eight dedicated columns undefined, refuting the claim as stated: the
sound_events column receives the empty-array fallback, not undefined. -/
theorem saveAnalysis_renamed_not_all_undefined :
    ¬ ∀ c ∈ extractedColumns
        (buildAnalysisRecord (some "clip.wav") "[]" renamedResults),
      c = none := by
  decide

/-- C5 (amended): saveAnalysis reads precisely the eight field names
duration, sampleRate, averageRMS, detectedSounds, dominantFrequency,
maxDecibels, soundEvents, frequencySpectrum of analysisResults to fill
the dedicated record columns, so two results agreeing on those names
yield identical columns; a result carrying the same data under different
names is stored with the six scalar columns undefined and the two array
columns holding the empty-array fallback. -/
theorem saveAnalysis_binds_exact_names {V : Type} (name : Option V)
    (emptyArr : V) (g g' : String → Option V) :
    ((∀ k ∈ audioAnalysisFieldNames, g k = g' k) →
      extractedColumns (buildAnalysisRecord name emptyArr g) =
        extractedColumns (buildAnalysisRecord name emptyArr g')) ∧
    ((∀ k ∈ audioAnalysisFieldNames, g k = none) →
      extractedColumns (buildAnalysisRecord name emptyArr g) =
        [none, none, none, none, none, none, some emptyArr, some emptyArr]) := by
  constructor
  · intro h
    have h1 := h "duration" (by simp [audioAnalysisFieldNames])
    have h2 := h "sampleRate" (by simp [audioAnalysisFieldNames])
    have h3 := h "averageRMS" (by simp [audioAnalysisFieldNames])
    have h4 := h "detectedSounds" (by simp [audioAnalysisFieldNames])
    have h5 := h "dominantFrequency" (by simp [audioAnalysisFieldNames])
    have h6 := h "maxDecibels" (by simp [audioAnalysisFieldNames])
    have h7 := h "soundEvents" (by simp [audioAnalysisFieldNames])
    have h8 := h "frequencySpectrum" (by simp [audioAnalysisFieldNames])
    simp [extractedColumns, buildAnalysisRecord, h1, h2, h3, h4, h5, h6, h7, h8]
  · intro h
    have h1 := h "duration" (by simp [audioAnalysisFieldNames])
    have h2 := h "sampleRate" (by simp [audioAnalysisFieldNames])
    have h3 := h "averageRMS" (by simp [audioAnalysisFieldNames])
    have h4 := h "detectedSounds" (by simp [audioAnalysisFieldNames])
    have h5 := h "dominantFrequency" (by simp [audioAnalysisFieldNames])
    have h6 := h "maxDecibels" (by simp [audioAnalysisFieldNames])
    have h7 := h "soundEvents" (by simp [audioAnalysisFieldNames])
    have h8 := h "frequencySpectrum" (by simp [audioAnalysisFieldNames])
    simp [extractedColumns, buildAnalysisRecord, h1, h2, h3, h4, h5, h6, h7, h8]

/-- Witness for C5 at the concrete renamed object. -/
theorem saveAnalysis_binds_exact_names_witness :
    (extractedColumns (buildAnalysisRecord (some "clip.wav") "[]" renamedResults) =
      extractedColumns (buildAnalysisRecord (some "clip.wav") "[]" renamedResults)) ∧
    extractedColumns (buildAnalysisRecord (some "clip.wav") "[]" renamedResults) =
      [none, none, none, none, none, none, some "[]", some "[]"] :=
  ⟨(saveAnalysis_binds_exact_names (some "clip.wav") "[]"
      renamedResults renamedResults).1 (fun _ _ => rfl),
   (saveAnalysis_binds_exact_names (some "clip.wav") "[]"
      renamedResults renamedResults).2 (by decide)⟩

/-- C6: the pipeline is deterministic: two runs on the identical waveform
and identical configuration yield bit-identical AnalysisResult values,
event detector included. -/
theorem runPipeline_deterministic (ops : DspOps) (w w' : Waveform)
    (cfg cfg' : Config) (hw : w = w') (hc : cfg = cfg') :
    runPipeline ops w cfg = runPipeline ops w' cfg' := by
  rw [hw, hc]

/-- Witness for C6 at the concrete silent run. -/
theorem runPipeline_deterministic_witness :
    runPipeline demoOps silentWave demoCfg = runPipeline demoOps silentWave demoCfg :=
  runPipeline_deterministic demoOps silentWave silentWave demoCfg demoCfg rfl rfl

/-- C7: with hopSize equal to frameSize the Frame Segmenter produces
exactly the ceiling of sampleCount over frameSize frames, stated here as
the natural-number expression (sampleCount + frameSize - 1) / frameSize;
in particular a waveform whose length is exactly frameSize produces
exactly one frame holding the samples verbatim, with no zero-padding. -/
theorem segmentFrames_ceil_count (samples : List ℚ) (fs : Nat)
    (hfs : 0 < fs) (_hn : 0 < samples.length) :
    (segmentFrames samples fs fs).length = (samples.length + fs - 1) / fs ∧
    (samples.length = fs → segmentFrames samples fs fs = [⟨0, samples⟩]) := by
  constructor
  · simp [segmentFrames, numFrames]
  · intro hl
    have h1 : numFrames samples.length fs = 1 := by
      unfold numFrames
      rw [hl]
      have h2 : fs + fs - 1 = (fs - 1) + fs := by omega
      rw [h2, Nat.add_div_right _ hfs, Nat.div_eq_of_lt (by omega)]
    have hr : List.range 1 = [0] := rfl
    unfold segmentFrames
    rw [h1, hr]
    simp only [List.map_cons, List.map_nil, Nat.zero_mul]
    rw [← hl, extractFrame_self]

/-- Witness for C7 at a two-sample waveform with frame size two. -/
theorem segmentFrames_ceil_count_witness :
    (segmentFrames [1, 2] 2 2).length = (([1, 2] : List ℚ).length + 2 - 1) / 2 ∧
    (([1, 2] : List ℚ).length = 2 → segmentFrames [1, 2] 2 2 = [⟨0, [1, 2]⟩]) :=
  segmentFrames_ceil_count [1, 2] 2 (by decide) (by decide)

/-- C8: an all-zero waveform of positive length with a valid
configuration runs through the pipeline without error and yields an
AnalysisResult with zero detected sounds and zero average RMS, for any
choice of the numeric primitives. -/
theorem silent_waveform_pipeline (ops : DspOps) (w : Waveform) (cfg : Config)
    (hne : w.samples ≠ []) (hz : ∀ x ∈ w.samples, x = 0)
    (hfs : cfg.frameSize ≠ 0) (hhs : cfg.hopSize ≠ 0) :
    ∃ r, runPipeline ops w cfg = .ok r ∧
      r.detectedSounds = 0 ∧ r.averageRMS = 0 := by
  have hEmpty : w.samples.isEmpty = false := by
    simpa [List.isEmpty_iff] using hne
  have hfeats : ∀ f ∈ (segmentFrames w.samples cfg.frameSize cfg.hopSize).map
      (frameFeatures ops w cfg), f.rms = 0 := by
    intro f hf
    obtain ⟨g, hg, rfl⟩ := List.mem_map.mp hf
    exact frameRMS_zero ops g.samples
      (segmentFrames_all_zero w.samples cfg.frameSize cfg.hopSize hz g hg)
  have hevents : detectEvents w cfg
      ((segmentFrames w.samples cfg.frameSize cfg.hopSize).map
        (frameFeatures ops w cfg)) = [] := by
    unfold detectEvents
    rw [detector_fold_silent cfg (holdFrames w cfg) _ hfeats]
    rfl
  have hcond : ¬(cfg.frameSize = 0 ∨ cfg.hopSize = 0) := by
    rintro (h | h)
    · exact hfs h
    · exact hhs h
  refine ⟨aggregate w
      ((segmentFrames w.samples cfg.frameSize cfg.hopSize).map
        (frameFeatures ops w cfg))
      (detectEvents w cfg
        ((segmentFrames w.samples cfg.frameSize cfg.hopSize).map
          (frameFeatures ops w cfg)))
      (((segmentFrames w.samples cfg.frameSize cfg.hopSize).map
        (frameSpectrum ops w cfg)).flatten), ?_, ?_, ?_⟩
  · unfold runPipeline
    simp only [hEmpty, Bool.false_eq_true, if_false]
    rw [if_neg hcond]
  · simp only [aggregate, hevents, List.length_nil]
  · simp only [aggregate]
    apply averageOf_zero
    intro x hx
    obtain ⟨f, hf, rfl⟩ := List.mem_map.mp hx
    exact hfeats f hf

/-- Witness for C8 at the concrete silent waveform. -/
theorem silent_waveform_pipeline_witness :
    ∃ r, runPipeline demoOps silentWave demoCfg = .ok r ∧
      r.detectedSounds = 0 ∧ r.averageRMS = 0 :=
  silent_waveform_pipeline demoOps silentWave demoCfg
    (by decide) (by decide) (by decide) (by decide)

/-- C9: clicking inside the sonar radius on a result whose soundEvents
list is empty makes the click handler hit Array.reduce with no initial
accumulator on an empty array, which throws a TypeError. -/
theorem empty_soundEvents_click_throws (distSq maxRadius time freq : ℚ)
    (h : distSq ≤ maxRadius * maxRadius) :
    handleCanvas2DClick [] distSq maxRadius time freq =
      .error "TypeError: Reduce of empty array with no initial value" := by
  simp [handleCanvas2DClick, reduceNoInit, h]

/-- Witness for C9 at a concrete in-radius click. -/
theorem empty_soundEvents_click_throws_witness :
    handleCanvas2DClick [] 0 1 0 0 =
      .error "TypeError: Reduce of empty array with no initial value" :=
  empty_soundEvents_click_throws 0 1 0 0 (by simp)

/-- C10: when the Supabase client is unavailable, saveAnalysis resolves
to the non-null string demo-id- followed by the timestamp and persists
nothing, so the public interface reports success although nothing was
saved. -/
theorem saveAnalysis_demo_mode (now : Nat) (insertedId : Option String) :
    saveAnalysis false now insertedId =
      ⟨some ("demo-id-" ++ toString now), false⟩ ∧
    (saveAnalysis false now insertedId).result ≠ none := by
  exact ⟨rfl, by simp [saveAnalysis]⟩

end AudioForensic
